import Mathlib

/-!
Shallow embedding of the periodic task scheduler implemented in
`internal/api/v1/handler/scheduler.go`: the retry executor (`callWithRetry`),
the operation registry (`RegisterAPI`), the lifecycle controller (`Start`,
`Stop`, `IsRunning`), the run loop (`runLoop`), the constructor
(`NewScheduler`) and the media call wrappers (`checkFileExists`,
`callSendGIF`, `callSendVoice`, `callSendVideo`).

External effects are made explicit parameters: the Telegram client's answer
to a call, the file system (a predicate on paths), and the `stopChan`
channel, which is modelled as an abstract stop signal saying at which
observation point (if any) the close of the channel becomes visible.
Time is counted in whole seconds; the `float64` computation of the backoff
delay is exact integer arithmetic in the modelled range, because multiplying
a float by a power of two only shifts its exponent.
-/

namespace SchedulerModel

/-- Outcome of one invocation of a registered operation (`apiCallFunc` in the
source, `func() (string, int, error)`), with the Go `error` collapsed to its
message string. -/
inductive AttemptResult where
  | ok (res : String) (status : Int)
  | fail (errMsg : String) (status : Int)
deriving Repr, DecidableEq

/-- When the close of `stopChan` becomes visible inside `callWithRetry`.
`beforeAttempt k`: the channel is already closed when the top-of-loop
`select` of attempt `k` runs.  `duringWait k t`: the channel closes `t`
seconds into the backoff wait that follows failed attempt `k` (if that wait
is reached); when `t` is at least the full delay the `time.After` timer wins
the race, and the close is visible from the check of attempt `k + 1` on.
`never`: the channel is never closed. -/
inductive StopSignal where
  | never
  | beforeAttempt (k : Nat)
  | duringWait (k : Nat) (t : Nat)
deriving Repr, DecidableEq

/-- Backoff delay in seconds after failed attempt `attempt`, from
`time.Duration(float64(s.retryDelaySec)*math.Pow(2, float64(attempt))) * time.Second`. -/
def backoffDelay (retryDelaySec : Int) (attempt : Nat) : Int :=
  retryDelaySec * 2 ^ attempt

/-- Whether the `select` at the top of the retry loop of attempt `i` sees the
stop channel closed. -/
def stopVisibleAtCheck (sig : StopSignal) (retryDelaySec : Int) (i : Nat) : Bool :=
  match sig with
  | StopSignal.never => false
  | StopSignal.beforeAttempt k => decide (k ≤ i)
  | StopSignal.duringWait k t =>
      decide (k < i ∧ backoffDelay retryDelaySec k ≤ (t : Int))

/-- Whether the backoff wait after failed attempt `i` (full duration `d`) is
interrupted by the stop channel, and after how many seconds. -/
def waitInterruptedAt (sig : StopSignal) (i : Nat) (d : Int) : Option Nat :=
  match sig with
  | StopSignal.duringWait k t => if k = i ∧ (t : Int) < d then some t else none
  | _ => none

/-- What one call of `callWithRetry` returns, together with its observable
trace: `res`, `status` and `err` are the Go return values (`err` collapsed to
its message), `invocations` counts how many times `fn` was called, `waits`
lists the backoff waits that ran to completion (in seconds), and
`partialWait` is the time spent in a backoff wait that was cut short by the
stop signal, if any. -/
structure RetryResult where
  res : String
  status : Int
  err : Option String
  invocations : Nat
  waits : List Int
  partialWait : Option Nat
deriving Repr, DecidableEq

/-- Body of the retry loop of `callWithRetry`, at attempt index `i` with
`remaining` loop iterations left and the loop variables `status` and
`lastErr` as accumulated so far; `waits` accumulates the completed backoff
waits of earlier iterations. -/
def callWithRetryAux (retryDelaySec : Int) (fn : Nat → AttemptResult)
    (sig : StopSignal) (i : Nat) (remaining : Nat) (status : Int)
    (lastErr : Option String) (waits : List Int) : RetryResult :=
  match remaining with
  | 0 => ⟨"", status, lastErr, i, waits, none⟩
  | remaining' + 1 =>
    if stopVisibleAtCheck sig retryDelaySec i then
      ⟨"", 0, some "stopped", i, waits, none⟩
    else
      match fn i with
      | AttemptResult.ok res st => ⟨res, st, none, i + 1, waits, none⟩
      | AttemptResult.fail e st =>
        let d := backoffDelay retryDelaySec i
        match waitInterruptedAt sig i d with
        | some t => ⟨"", st, some "stopped during retry", i + 1, waits, some t⟩
        | none =>
            callWithRetryAux retryDelaySec fn sig (i + 1) remaining' st (some e)
              (waits ++ [d])

/-- `callWithRetry`: the loop runs for `attempt := 0; attempt <= s.retryCount`,
so `(retryCount + 1).toNat` iterations (none when `retryCount` is negative);
`status` starts at `0` and `lastErr` at `nil`. -/
def callWithRetry (retryCount retryDelaySec : Int) (fn : Nat → AttemptResult)
    (sig : StopSignal) : RetryResult :=
  callWithRetryAux retryDelaySec fn sig 0 (retryCount + 1).toNat 0 none []

/-- The list of backoff delays for `n` consecutive failed attempts starting
at attempt index `i`. -/
def expWaits (d : Int) (i n : Nat) : List Int :=
  match n with
  | 0 => []
  | n' + 1 => backoffDelay d i :: expWaits d (i + 1) n'

theorem expWaits_eq_map (d : Int) :
    ∀ (n i : Nat), expWaits d i n = (List.range n).map (fun k => backoffDelay d (i + k)) := by
  intro n
  induction n with
  | zero => intro i; simp [expWaits]
  | succ m ih =>
    intro i
    rw [expWaits, List.range_succ_eq_map, List.map_cons, ih (i + 1), List.map_map]
    have hmap : ((fun k => backoffDelay d (i + k)) ∘ Nat.succ) =
        (fun k => backoffDelay d (i + 1 + k)) := by
      funext k
      simp only [Function.comp_apply]
      have h2 : i + Nat.succ k = i + 1 + k := by omega
      rw [h2]
    rw [hmap]
    simp

theorem callWithRetryAux_allFail (d : Int) (e : Nat → String) (st : Nat → Int) :
    ∀ (remaining i : Nat) (status : Int) (lastErr : Option String) (waits : List Int),
    callWithRetryAux d (fun j => AttemptResult.fail (e j) (st j)) StopSignal.never
        i (remaining + 1) status lastErr waits =
      ⟨"", st (i + remaining), some (e (i + remaining)), i + remaining + 1,
        waits ++ expWaits d i (remaining + 1), none⟩ := by
  intro remaining
  induction remaining with
  | zero =>
    intro i status lastErr waits
    simp [callWithRetryAux, stopVisibleAtCheck, waitInterruptedAt, expWaits]
  | succ m ih =>
    intro i status lastErr waits
    rw [callWithRetryAux]
    simp only [stopVisibleAtCheck, waitInterruptedAt, if_neg, Bool.false_eq_true,
      not_false_eq_true, if_false]
    rw [ih (i + 1) (st i) (some (e i)) (waits ++ [backoffDelay d i])]
    have harr : i + 1 + m = i + (m + 1) := by omega
    rw [harr]
    simp [expWaits, List.append_assoc]

theorem callWithRetryAux_duringWait (d : Int) (fn : Nat → AttemptResult)
    (e : Nat → String) (st : Nat → Int) (t : Nat) :
    ∀ (m i remaining : Nat) (status : Int) (lastErr : Option String) (waits : List Int),
    (∀ j, j ≤ i + m → fn j = AttemptResult.fail (e j) (st j)) →
    (t : Int) < backoffDelay d (i + m) →
    m < remaining →
    callWithRetryAux d fn (StopSignal.duringWait (i + m) t) i remaining status lastErr waits =
      ⟨"", st (i + m), some "stopped during retry", i + m + 1,
        waits ++ expWaits d i m, some t⟩ := by
  intro m
  induction m with
  | zero =>
    intro i remaining status lastErr waits hfail ht hrem
    cases remaining with
    | zero => omega
    | succ r =>
      rw [callWithRetryAux]
      have hvis : stopVisibleAtCheck (StopSignal.duringWait (i + 0) t) d i = false := by
        simp [stopVisibleAtCheck]
      rw [hvis, if_neg (by simp), hfail i (by omega)]
      have hint : waitInterruptedAt (StopSignal.duringWait (i + 0) t) i
          (backoffDelay d i) = some t := by
        have : i + 0 = i := by omega
        rw [this] at ht ⊢
        simp [waitInterruptedAt, ht]
      simp only [hint]
      simp [expWaits]
  | succ m ih =>
    intro i remaining status lastErr waits hfail ht hrem
    cases remaining with
    | zero => omega
    | succ r =>
      rw [callWithRetryAux]
      have hvis : stopVisibleAtCheck (StopSignal.duringWait (i + (m + 1)) t) d i = false := by
        simp [stopVisibleAtCheck]
      rw [hvis, if_neg (by simp), hfail i (by omega)]
      have hint : waitInterruptedAt (StopSignal.duringWait (i + (m + 1)) t) i
          (backoffDelay d i) = none := by
        simp [waitInterruptedAt]
      simp only [hint]
      have harr : i + (m + 1) = (i + 1) + m := by omega
      rw [harr] at hfail ht ⊢
      rw [ih (i + 1) r (st i) (some (e i)) (waits ++ [backoffDelay d i]) hfail ht (by omega)]
      simp [expWaits, List.append_assoc]

theorem callWithRetry_firstOk (retryCount d : Int) (res : String) (st : Int)
    (h : 0 ≤ retryCount) :
    callWithRetry retryCount d (fun _ => AttemptResult.ok res st) StopSignal.never =
      ⟨res, st, none, 1, [], none⟩ := by
  rw [callWithRetry]
  have h1 : (retryCount + 1).toNat = retryCount.toNat + 1 := by omega
  rw [h1, callWithRetryAux]
  simp [stopVisibleAtCheck]

/-- C4: with `retryCount = n ≥ 0` and an operation that fails on every
invocation (failure message `e j` and status `st j` on attempt `j`), and no
stop signal raised, `callWithRetry` invokes the operation exactly `n + 1`
times and returns the failure and status code produced by the last attempt
(attempt index `n`), with an empty result string. -/
theorem c4_retry_exhaustion (n : Nat) (d : Int) (e : Nat → String) (st : Nat → Int) :
    callWithRetry (n : Int) d (fun j => AttemptResult.fail (e j) (st j))
        StopSignal.never =
      ⟨"", st n, some (e n), n + 1, expWaits d 0 (n + 1), none⟩ := by
  rw [callWithRetry]
  have h1 : ((n : Int) + 1).toNat = n + 1 := by omega
  rw [h1, callWithRetryAux_allFail]
  simp

/-- C3 as stated is false on the code: the claim says the executor waits only
when retries are not yet exhausted and returns without waiting after the
final failed attempt.  With `retryCount = 0` and `retryDelaySec = 1` the
single attempt is the final one, yet the code still performs a full backoff
wait of `1 * 2^0 = 1` second after it (the wait list should be empty on the
claim's reading). -/
theorem c3_counterexample :
    (callWithRetry 0 1 (fun _ => AttemptResult.fail "boom" 500)
        StopSignal.never).invocations = 1 ∧
    (callWithRetry 0 1 (fun _ => AttemptResult.fail "boom" 500)
        StopSignal.never).waits = [1] := by
  constructor <;> rfl

/-- C3 amended: after every failed attempt — the final one included — the
executor waits `retryDelaySec * 2^attempt` seconds (attempt 0-indexed), so
for an operation failing on all of attempts `0..n` the completed waits are
exactly `d * 2^0, d * 2^1, ..., d * 2^n`, and no wait is cut short. -/
theorem c3_backoff_after_every_failure (n : Nat) (d : Int) (e : Nat → String)
    (st : Nat → Int) :
    (callWithRetry (n : Int) d (fun j => AttemptResult.fail (e j) (st j))
        StopSignal.never).waits =
      (List.range (n + 1)).map (fun k => d * 2 ^ k) ∧
    (callWithRetry (n : Int) d (fun j => AttemptResult.fail (e j) (st j))
        StopSignal.never).partialWait = none := by
  rw [callWithRetry]
  have h1 : ((n : Int) + 1).toNat = n + 1 := by omega
  rw [h1, callWithRetryAux_allFail]
  refine ⟨?_, rfl⟩
  rw [List.nil_append, expWaits_eq_map]
  simp [backoffDelay]

/-- C5: if every attempt up to `k` fails and the stop signal is raised `t`
seconds into the backoff wait that follows failed attempt `k` — strictly
before the full delay `backoffDelay d k` elapses — then `callWithRetry`
returns the "stopped during retry" cancellation failure with the status of
the failed attempt, performs no further attempt (exactly `k + 1`
invocations), and the interrupted wait lasted only `t < backoffDelay d k`
seconds. -/
theorem c5_stop_during_backoff (retryCount d : Int) (k t : Nat)
    (fn : Nat → AttemptResult) (e : Nat → String) (st : Nat → Int)
    (hfail : ∀ j, j ≤ k → fn j = AttemptResult.fail (e j) (st j))
    (hk : (k : Int) ≤ retryCount)
    (ht : (t : Int) < backoffDelay d k) :
    callWithRetry retryCount d fn (StopSignal.duringWait k t) =
      ⟨"", st k, some "stopped during retry", k + 1, expWaits d 0 k, some t⟩ ∧
    (t : Int) < backoffDelay d k := by
  refine ⟨?_, ht⟩
  rw [callWithRetry]
  have h0 : (0 : Nat) + k = k := by omega
  have := callWithRetryAux_duringWait d fn e st t k 0 (retryCount + 1).toNat
    0 none []
  rw [h0] at this
  rw [this hfail ht (by omega)]
  simp

/-- Witness for C5 at `retryCount = 1`, `retryDelaySec = 1`, an operation
failing with status 7, and a stop raised 0 seconds into the first backoff
wait (full delay 1 second). -/
theorem c5_stop_during_backoff_witness :
    callWithRetry 1 1 (fun _ => AttemptResult.fail "x" 7)
        (StopSignal.duringWait 0 0) =
      ⟨"", 7, some "stopped during retry", 1, [], some 0⟩ :=
  (c5_stop_during_backoff 1 1 0 0 (fun _ => AttemptResult.fail "x" 7)
    (fun _ => "x") (fun _ => 7) (fun _ _ => rfl) (by decide) (by decide)).1

/-- C9: if the stop channel is already closed before the top-of-loop check of
the first attempt, `callWithRetry` returns the "stopped" cancellation failure
with status 0 and never invokes the operation (0 invocations, no waits). -/
theorem c9_stop_before_first_attempt (retryCount d : Int)
    (fn : Nat → AttemptResult) (h : 0 ≤ retryCount) :
    callWithRetry retryCount d fn (StopSignal.beforeAttempt 0) =
      ⟨"", 0, some "stopped", 0, [], none⟩ := by
  rw [callWithRetry]
  have h1 : (retryCount + 1).toNat = retryCount.toNat + 1 := by omega
  rw [h1, callWithRetryAux]
  simp [stopVisibleAtCheck]

/-- Witness for C9 at `retryCount = 2`, `retryDelaySec = 1` and an operation
that would succeed with status 200 if it were ever invoked. -/
theorem c9_stop_before_first_attempt_witness :
    callWithRetry 2 1 (fun _ => AttemptResult.ok "y" 200)
        (StopSignal.beforeAttempt 0) =
      ⟨"", 0, some "stopped", 0, [], none⟩ :=
  c9_stop_before_first_attempt 2 1 (fun _ => AttemptResult.ok "y" 200) (by decide)

/-- Operation registry owned by the Scheduler: `apiCalls` models the Go map
`map[string]apiCallFunc` as an association list updated in place, and
`apiOrder` is the `[]string` slice of registration order.  The callables are
opaque to the scheduler, so they are represented by values of an arbitrary
type `α`. -/
structure Registry (α : Type) where
  apiCalls : List (String × α)
  apiOrder : List String
deriving Repr, DecidableEq

/-- Go map assignment `m[k] = v` on the association-list model: overwrite the
existing entry for `k` if there is one, otherwise add one. -/
def mapInsert {α : Type} : List (String × α) → String → α → List (String × α)
  | [], name, fnv => [(name, fnv)]
  | (k, v) :: rest, name, fnv =>
    if k = name then (k, fnv) :: rest else (k, v) :: mapInsert rest name fnv

/-- Go map read `m[k]` on the association-list model. -/
def mapLookup {α : Type} : List (String × α) → String → Option α
  | [], _ => none
  | (k, v) :: rest, name => if k = name then some v else mapLookup rest name

/-- `RegisterAPI(name, fn)`: `s.apiCalls[name] = fn` and
`s.apiOrder = append(s.apiOrder, name)` — the name is appended to the order
unconditionally, whether or not it was already registered. -/
def RegisterAPI {α : Type} (r : Registry α) (name : String) (fn : α) : Registry α :=
  ⟨mapInsert r.apiCalls name fn, r.apiOrder ++ [name]⟩

/-- Registry of a freshly constructed Scheduler before any registration. -/
def emptyRegistry {α : Type} : Registry α := ⟨[], []⟩

/-- The per-cycle invocation sequence of `runOnce`: it iterates `s.apiOrder`
and looks each name up in `s.apiCalls`, so a name is invoked once per
occurrence in `apiOrder`, each time through the callable currently stored in
the map. -/
def cycleInvocations {α : Type} (r : Registry α) : List (String × Option α) :=
  r.apiOrder.map (fun n => (n, mapLookup r.apiCalls n))

theorem mapLookup_mapInsert {α : Type} (l : List (String × α)) (name : String)
    (fn : α) : mapLookup (mapInsert l name fn) name = some fn := by
  induction l with
  | nil => simp [mapInsert, mapLookup]
  | cons hd tl ih =>
    obtain ⟨k, v⟩ := hd
    by_cases hk : k = name
    · simp [mapInsert, mapLookup, hk]
    · simp [mapInsert, mapLookup, hk, ih]

/-- C2 as stated is false on the code: re-registering an existing name does
change the execution order.  Registering "A" and then re-registering "A"
leaves "A" occupying two slots of `apiOrder`, and one cycle of `runOnce`
invokes "A" twice (both times through the newer callable), not exactly
once. -/
theorem c2_counterexample :
    (RegisterAPI (RegisterAPI (emptyRegistry : Registry Nat) "A" 1) "A" 2).apiOrder.count "A"
        = 2 ∧
    cycleInvocations (RegisterAPI (RegisterAPI (emptyRegistry : Registry Nat) "A" 1) "A" 2)
        = [("A", some 2), ("A", some 2)] := by
  constructor <;> rfl

/-- C2 amended: re-registering an existing name overwrites its callable in
the map, but also appends the name to the execution order again, so the name
gains one more slot per registration and is invoked once per slot each cycle
(every slot dispatching to the most recently registered callable). -/
theorem c2_reregistration_appends_slot {α : Type} (r : Registry α)
    (name : String) (fn : α) :
    (RegisterAPI r name fn).apiOrder = r.apiOrder ++ [name] ∧
    (RegisterAPI r name fn).apiOrder.count name = r.apiOrder.count name + 1 ∧
    mapLookup (RegisterAPI r name fn).apiCalls name = some fn := by
  refine ⟨rfl, ?_, mapLookup_mapInsert r.apiCalls name fn⟩
  simp [RegisterAPI, List.count_append]

/-- Mutable lifecycle state of the Scheduler: the `running` flag, the current
`stopChan` (identified by an allocation counter `stopChanGen`, with
`stopClosed` saying whether that channel has been closed) and the
`sync.WaitGroup` counter `wgOutstanding` (the completion barrier). -/
structure LifecycleState where
  running : Bool
  stopChanGen : Nat
  stopClosed : Bool
  wgOutstanding : Nat
deriving Repr, DecidableEq

/-- Lifecycle state established by `NewScheduler`: not running, initial
channel open, no outstanding background work. -/
def initLifecycle : LifecycleState := ⟨false, 0, false, 0⟩

/-- `Start()`: under the lock, error if already running; otherwise set
`running = true`, allocate a fresh `stopChan`, add one unit to the
`WaitGroup` and launch `runLoop` in a goroutine.  Returns the Go error value
and the state after the call (unchanged on the error path). -/
def Start (s : LifecycleState) : Except String Unit × LifecycleState :=
  if s.running then (Except.error "scheduler already running", s)
  else (Except.ok (),
    ⟨true, s.stopChanGen + 1, false, s.wgOutstanding + 1⟩)

/-- `Stop()`: under the lock, return immediately when not running; otherwise
set `running = false`, close `stopChan`, release the lock and block on
`wg.Wait()`.  The second component records whether the call reached the
`wg.Wait()` barrier (`false` on the no-op path, which returns without
blocking). -/
def Stop (s : LifecycleState) : LifecycleState × Bool :=
  if s.running then (⟨false, s.stopChanGen, true, s.wgOutstanding⟩, true)
  else (s, false)

/-- `IsRunning()`: the `running` flag under the lock. -/
def IsRunning (s : LifecycleState) : Bool := s.running

/-- C6: calling `Stop` when not running is a no-op that returns without
reaching the blocking barrier; when running, `Stop` clears the `running` flag
and closes the stop channel, so `IsRunning` is false after any `Stop`; and
`IsRunning` is false in the freshly constructed state, before the first
`Start`. -/
theorem c6_stop_is_safe (s : LifecycleState) :
    (s.running = false → Stop s = (s, false)) ∧
    (s.running = true → (Stop s).1.running = false ∧ (Stop s).1.stopClosed = true) ∧
    IsRunning (Stop s).1 = false ∧
    IsRunning initLifecycle = false := by
  cases h : s.running <;> simp [Stop, IsRunning, initLifecycle, h]

/-- Witness for C6: the no-op branch at a concrete stopped state, and the
flag/channel updates at a concrete running state. -/
theorem c6_stop_is_safe_witness :
    Stop ⟨false, 0, false, 0⟩ = (⟨false, 0, false, 0⟩, false) ∧
    (Stop ⟨true, 1, false, 1⟩).1.running = false ∧
    (Stop ⟨true, 1, false, 1⟩).1.stopClosed = true :=
  ⟨(c6_stop_is_safe ⟨false, 0, false, 0⟩).1 rfl,
   (c6_stop_is_safe ⟨true, 1, false, 1⟩).2.1 rfl⟩

/-- C7: calling `Start` while running fails with the "already running" error
and leaves the state untouched; calling `Start` when not running succeeds,
sets `running = true`, allocates a fresh (open) stop channel and registers
one unit of background work. -/
theorem c7_start_guard (s : LifecycleState) :
    (s.running = true →
      Start s = (Except.error "scheduler already running", s)) ∧
    (s.running = false →
      (Start s).1 = Except.ok () ∧
      (Start s).2.running = true ∧
      (Start s).2.stopClosed = false ∧
      (Start s).2.stopChanGen = s.stopChanGen + 1 ∧
      (Start s).2.wgOutstanding = s.wgOutstanding + 1) := by
  cases h : s.running <;> simp [Start, h]

/-- Witness for C7: the rejection at a concrete running state and the
successful activation at the initial state. -/
theorem c7_start_guard_witness :
    Start ⟨true, 1, false, 1⟩ = (Except.error "scheduler already running", ⟨true, 1, false, 1⟩) ∧
    (Start initLifecycle).1 = Except.ok () ∧
    (Start initLifecycle).2.running = true :=
  ⟨(c7_start_guard ⟨true, 1, false, 1⟩).1 rfl,
   ((c7_start_guard initLifecycle).2 rfl).1,
   ((c7_start_guard initLifecycle).2 rfl).2.1⟩

/-- Value of a decimal digit character, `none` for any other character
(including the underscores that `strconv.ParseInt` rejects when an explicit
base 10 is given). -/
def digitVal (c : Char) : Option Nat :=
  if '0' ≤ c ∧ c ≤ '9' then some (c.toNat - '0'.toNat) else none

/-- Digit scan of `strconv.ParseInt(s, 10, 64)` after the sign: accumulate
base-10 digits, failing on any non-digit character. -/
def parseDecDigitsGo : List Char → Nat → Option Nat
  | [], acc => some acc
  | c :: rest, acc =>
    match digitVal c with
    | none => none
    | some dv => parseDecDigitsGo rest (acc * 10 + dv)

/-- Digit part of `strconv.ParseInt(s, 10, 64)`: at least one digit is
required. -/
def parseDecDigits : List Char → Option Nat
  | [] => none
  | cs => parseDecDigitsGo cs 0

/-- `strconv.ParseInt(chatIDStr, 10, 64)`: optional leading sign, one or more
decimal digits, and the value must fit a signed 64-bit integer (otherwise the
call errors with `ErrRange` and `NewScheduler` rejects the chat id). -/
def parseInt64 (s : String) : Option Int :=
  let signSplit : Bool × List Char :=
    match s.data with
    | '+' :: r => (false, r)
    | '-' :: r => (true, r)
    | r => (false, r)
  match parseDecDigits signSplit.2 with
  | none => none
  | some m =>
    if signSplit.1 then
      if m ≤ 2 ^ 63 then some (-(m : Int)) else none
    else
      if m ≤ 2 ^ 63 - 1 then some (m : Int) else none

/-- The Scheduler aggregate as built by `NewScheduler`: the immutable
configuration, the lifecycle state and the operation registry.  The callables
of the five built-in operations are identified by their registration index
(0 = `callSendMessage` ... 4 = `callGetUpdates`). -/
structure Scheduler where
  chatID : Int
  intervalMinutes : Rat
  runCount : Int
  retryCount : Int
  retryDelaySec : Int
  lifecycle : LifecycleState
  registry : Registry Nat
deriving Repr, DecidableEq

/-- The five `RegisterAPI` calls performed by `NewScheduler`, in source
order. -/
def builtinRegistry : Registry Nat :=
  RegisterAPI (RegisterAPI (RegisterAPI (RegisterAPI (RegisterAPI
    (emptyRegistry : Registry Nat)
    "SendMessage" 0) "SendGIF" 1) "SendVoice" 2) "SendVideo" 3) "GetUpdates" 4

/-- `NewScheduler`: parse the chat id, then open the log file (an OS effect,
whose success is the parameter `logOpens`), then build the Scheduler and
register the five operations.  No other argument is validated: the interval,
run count, retry count and retry delay are stored as given. -/
def NewScheduler (chatIDStr : String) (intervalMinutes : Rat)
    (runCount retryCount retryDelaySec : Int) (logOpens : Bool) :
    Except String Scheduler :=
  match parseInt64 chatIDStr with
  | none => Except.error "invalid chatID"
  | some chatID =>
    if logOpens then
      Except.ok ⟨chatID, intervalMinutes, runCount, retryCount, retryDelaySec,
        initLifecycle, builtinRegistry⟩
    else Except.error "cannot open log file"

/-- Whether an `Except` result is a success. -/
def isOkB {ε α : Type} : Except ε α → Bool
  | Except.ok _ => true
  | Except.error _ => false

/-- C8 as stated is false on the code: `NewScheduler` performs no validation
of the tick interval.  With a parsable chat id, an openable log destination
and `intervalMinutes = 0` (not greater than zero), construction succeeds and
a Scheduler is created, where the claim requires a ConfigError. -/
theorem c8_counterexample :
    isOkB (NewScheduler "1" 0 17 2 1 true) = true := by rfl

/-- C8 amended: construction succeeds exactly when the target identifier
parses as a signed 64-bit decimal integer and the log destination opens; the
tick interval (like the run count, retry count and retry delay) is accepted
unvalidated, zero and negative values included. -/
theorem c8_construction_validation (chatIDStr : String) (intervalMinutes : Rat)
    (runCount retryCount retryDelaySec : Int) (logOpens : Bool) :
    isOkB (NewScheduler chatIDStr intervalMinutes runCount retryCount
        retryDelaySec logOpens) =
      ((parseInt64 chatIDStr).isSome && logOpens) := by
  cases h : parseInt64 chatIDStr <;> cases logOpens <;>
    simp [NewScheduler, h, isOkB]

/-- Where the run loop ends up when the run-count ceiling fires with no
external stop: `runLoop` calls `s.Stop()` from inside the loop goroutine.
`Stop` flips `running` to false and closes `stopChan`, but then blocks on
`wg.Wait()`, and the one outstanding `wg.Done()` is deferred to the return of
`runLoop` itself — which is parked inside `Stop`.  The goroutine therefore
stays blocked forever: `cyclesCompleted` counts the `runOnce` executions
performed before the block, and `stateAtBlock` is the lifecycle state it is
stuck with (running = false, channel closed, barrier still at 1). -/
structure SelfStopBlocked where
  cyclesCompleted : Int
  stateAtBlock : LifecycleState
deriving Repr, DecidableEq

/-- The `for`/`select` loop of `runLoop` after the initial cycle, under the
assumption that no external stop is ever raised, so every iteration takes the
timer branch: `runOnce`, `count++`, then the ceiling check
`s.runCount > 0 && count >= s.runCount`.  `fuel` bounds the number of timer
ticks examined; `none` means the loop is still running after `fuel` ticks
(as with `runCount = 0`, unbounded). -/
def runLoopFrom (runCount : Int) (st : LifecycleState) (count : Int) :
    Nat → Option SelfStopBlocked
  | 0 => none
  | fuel + 1 =>
    let count' := count + 1
    if 0 < runCount ∧ runCount ≤ count' then some ⟨count', (Stop st).1⟩
    else runLoopFrom runCount st count' fuel

/-- `runLoop` with no external stop: it executes one cycle immediately and
sets `count = 1` before entering the timer loop — the ceiling check does not
run after this initial cycle. -/
def runLoop (runCount : Int) (st : LifecycleState) (fuel : Nat) :
    Option SelfStopBlocked :=
  runLoopFrom runCount st 1 fuel

/-- C1 is the intent but the code diverges, evaluated here at concrete
inputs, starting from the lifecycle state `Start` leaves behind.  With
`runCount = 1` the loop completes 2 cycles, not 1, because the ceiling check
is skipped after the initial immediate cycle; with `runCount = 3` it does
complete exactly 3 cycles.  In both cases the loop then calls `Stop` on
itself: `running` becomes false (so `IsRunning` reports false), but the
goroutine blocks forever inside `Stop` on `wg.Wait()` with the completion
barrier still at 1 — the loop never terminates on its own. -/
theorem c1_run_count_divergence :
    runLoop 1 ⟨true, 1, false, 1⟩ 10 = some ⟨2, ⟨false, 1, true, 1⟩⟩ ∧
    runLoop 3 ⟨true, 1, false, 1⟩ 10 = some ⟨3, ⟨false, 1, true, 1⟩⟩ ∧
    IsRunning ⟨false, 1, true, 1⟩ = false ∧
    (⟨false, 1, true, 1⟩ : LifecycleState).wgOutstanding = 1 := by
  refine ⟨rfl, rfl, rfl, rfl⟩

/-- An `APIError` value: operation name, status code and message. -/
structure APIErrorData where
  op : String
  status : Int
  message : String
deriving Repr, DecidableEq

/-- What the Telegram client answers to one raw send call: the HTTP status
and the error message, if the call failed (the response body is irrelevant to
the scheduler's wrappers). -/
structure ClientAnswer where
  status : Int
  errMsg : Option String
deriving Repr, DecidableEq

/-- Result of one call wrapper: the returned `(string, int, error)` triple
(with the error as an `APIError`) plus whether the Telegram client was
invoked at all. -/
structure CallOutcome where
  res : String
  status : Int
  err : Option APIErrorData
  clientInvoked : Bool
deriving Repr, DecidableEq

/-- `checkFileExists`: `os.Stat(filePath)` succeeded — with the file system
as a predicate on paths. -/
def checkFileExists (fs : String → Bool) (filePath : String) : Bool :=
  fs filePath

/-- `callSendGIF`: skip with a success result when `./uploads/happy.gif` is
missing; otherwise call `SendAnimationRaw` and wrap a failure in an
`APIError`. -/
def callSendGIF (fs : String → Bool) (client : ClientAnswer) : CallOutcome :=
  let filePath := "./uploads/happy.gif"
  if !checkFileExists fs filePath then
    ⟨"skip sendAnimation - file not found", 0, none, false⟩
  else
    match client.errMsg with
    | some m => ⟨"", client.status, some ⟨"SendGIF", client.status, m⟩, true⟩
    | none => ⟨"sendAnimation sent: " ++ filePath, client.status, none, true⟩

/-- `callSendVoice`: skip with a success result when `./uploads/test.ogg` is
missing; otherwise call `SendVoiceRaw` and wrap a failure in an `APIError`. -/
def callSendVoice (fs : String → Bool) (client : ClientAnswer) : CallOutcome :=
  let filePath := "./uploads/test.ogg"
  if !checkFileExists fs filePath then
    ⟨"skip sendVoice - file not found", 0, none, false⟩
  else
    match client.errMsg with
    | some m => ⟨"", client.status, some ⟨"SendVoice", client.status, m⟩, true⟩
    | none => ⟨"sendVoice sent: " ++ filePath, client.status, none, true⟩

/-- `callSendVideo`: skip with a success result when
`./uploads/test_small.mp4` is missing; otherwise call `SendVideoRaw` and wrap
a failure in an `APIError`. -/
def callSendVideo (fs : String → Bool) (client : ClientAnswer) : CallOutcome :=
  let filePath := "./uploads/test_small.mp4"
  if !checkFileExists fs filePath then
    ⟨"skip sendVideo - file not found", 0, none, false⟩
  else
    match client.errMsg with
    | some m => ⟨"", client.status, some ⟨"SendVideo", client.status, m⟩, true⟩
    | none => ⟨"sendVideo sent: " ++ filePath, client.status, none, true⟩

/-- C10: when its expected local file is missing, each media operation
returns a success outcome — the skip message, status 0 and no failure —
without invoking the Telegram client; and since the outcome carries no
failure, `callWithRetry` running such an operation returns after a single
invocation with no error and no backoff wait, so the missing file triggers
neither a retry nor a failure record. -/
theorem c10_missing_file_skips (fs : String → Bool) (client : ClientAnswer)
    (retryCount retryDelaySec : Int)
    (hg : fs "./uploads/happy.gif" = false)
    (ho : fs "./uploads/test.ogg" = false)
    (hm : fs "./uploads/test_small.mp4" = false)
    (hrc : 0 ≤ retryCount) :
    callSendGIF fs client = ⟨"skip sendAnimation - file not found", 0, none, false⟩ ∧
    callSendVoice fs client = ⟨"skip sendVoice - file not found", 0, none, false⟩ ∧
    callSendVideo fs client = ⟨"skip sendVideo - file not found", 0, none, false⟩ ∧
    callWithRetry retryCount retryDelaySec
        (fun _ => AttemptResult.ok "skip sendAnimation - file not found" 0)
        StopSignal.never =
      ⟨"skip sendAnimation - file not found", 0, none, 1, [], none⟩ := by
  refine ⟨?_, ?_, ?_, callWithRetry_firstOk retryCount retryDelaySec _ _ hrc⟩
  · simp [callSendGIF, checkFileExists, hg]
  · simp [callSendVoice, checkFileExists, ho]
  · simp [callSendVideo, checkFileExists, hm]

/-- Witness for C10 on an empty file system, a client that would answer 200,
and `retryCount = 1`. -/
theorem c10_missing_file_skips_witness :
    callSendGIF (fun _ => false) ⟨200, none⟩ =
      ⟨"skip sendAnimation - file not found", 0, none, false⟩ ∧
    callSendVoice (fun _ => false) ⟨200, none⟩ =
      ⟨"skip sendVoice - file not found", 0, none, false⟩ :=
  ⟨(c10_missing_file_skips (fun _ => false) ⟨200, none⟩ 1 1 rfl rfl rfl (by decide)).1,
   (c10_missing_file_skips (fun _ => false) ⟨200, none⟩ 1 1 rfl rfl rfl (by decide)).2.1⟩
